import Mathlib

/-
Verification of the multi-provider AI request router (`AIRouter` in
`src/lib/ai-router.ts`-style module: class with `selectProvider`, `chat`,
`getStatistics`, `resetStatistics`, constants `PROVIDER_INFO`).

Shallow embedding notes, checked against the TypeScript source:

* `AIProvider = "openai" | "anthropic" | "auto"`.
* `PROVIDER_INFO` costs are the double literals `0.00003` and `0.00002`.
  The only float arithmetic the router performs with them is
  `costPerToken * 100000` (capability scoring) and `<` comparison
  (cost optimization).  Both are exact at these constants in IEEE-754
  doubles: `fl(fl(3e-5) * 100000) = 3` and `fl(fl(2e-5) * 100000) = 2`
  (the parse errors are below half an ulp of 3 resp. 2), and every
  intermediate score value (integers in [-10, 8]) is exactly
  representable.  We therefore carry `costPerToken` scaled by `10^5` as
  a `Nat` (`3` and `2`), which makes every score an `Int` and every
  comparison exact, agreeing with the double computation of the source.
* `requestCounts : Map<AIProvider, number>` is modelled as an
  association list in insertion order, which is exactly the observable
  behaviour of a JS `Map` (`set` updates in place or appends; iteration
  is insertion order).
* The outbound HTTP call in `executeChatRequest` is external I/O; it is
  modelled as an oracle parameter `invoke` mapping a provider and a
  request to either a success value or a thrown error (a `String`).
  `chat` additionally records the ordered list of providers it invoked,
  so that "never invokes a provider" is a statement about the model.
* `hasOpenAI()` / `hasAnthropic()` read environment variables; they are
  modelled as two boolean parameters `hasO`, `hasA`.
-/

namespace AIRouterModel

/-- Provider identifiers, `type AIProvider = "openai" | "anthropic" | "auto"`. -/
inductive AIProvider where
  | openai
  | anthropic
  | auto
deriving DecidableEq

/-- Provider speed tag, `"fast" | "medium" | "slow"`. -/
inductive Speed where
  | fast
  | medium
  | slow
deriving DecidableEq

/-- Capability record of a provider (`AIProviderInfo.capabilities`). -/
structure Capabilities where
  streaming : Bool
  functionCalling : Bool
  vision : Bool
  maxTokens : Nat
deriving DecidableEq

/-- Provider descriptor (`AIProviderInfo`).  `costPerTokenE5` is
`costPerToken` scaled by `10^5` (exact, see header comment).  The source
additionally tags pushed entries with `available: true`; no code ever
reads that field, availability being represented by membership in the
list returned by `getAvailableProviders`, so it is omitted here. -/
structure AIProviderInfo where
  name : AIProvider
  costPerTokenE5 : Nat
  speed : Speed
  capabilities : Capabilities
deriving DecidableEq

/-- `PROVIDER_INFO.openai`: cost `0.00003`, fast, vision, 128000 max tokens. -/
def openaiInfo : AIProviderInfo :=
  { name := .openai
    costPerTokenE5 := 3
    speed := .fast
    capabilities :=
      { streaming := true, functionCalling := true, vision := true, maxTokens := 128000 } }

/-- `PROVIDER_INFO.anthropic`: cost `0.00002`, medium, vision, 200000 max tokens. -/
def anthropicInfo : AIProviderInfo :=
  { name := .anthropic
    costPerTokenE5 := 2
    speed := .medium
    capabilities :=
      { streaming := true, functionCalling := true, vision := true, maxTokens := 200000 } }

/-- `PROVIDER_INFO[p]` as a lookup; `"auto"` has no entry (in JS the access
would yield `undefined`, hence `Option`). -/
def providerInfoOf : AIProvider → Option AIProviderInfo
  | .openai => some openaiInfo
  | .anthropic => some anthropicInfo
  | .auto => none

/-- Runtime value of the `content` field of a message.  The declared TS type is
`string`, but `selectByCapabilities` defensively checks
`typeof msg.content === "object" && msg.content.type === "image"`, so the
model keeps both runtime shapes. -/
inductive MsgContent where
  | str (s : String)
  | obj (typeTag : String)
deriving DecidableEq

/-- A chat message (`{ role, content }`). -/
structure Message where
  role : String
  content : MsgContent
deriving DecidableEq

/-- A chat request.  The router only ever inspects `messages`; the optional
generation parameters (`model`, `temperature`, `maxTokens`, `stream`) are
forwarded opaquely and are omitted from the model. -/
structure ChatRequest where
  messages : List Message
deriving DecidableEq

/-- Router configuration with the defaults applied by the constructor
(`defaultProvider: "auto"`, `fallbackEnabled: true`,
`costOptimization: false`, `loadBalancing: false`). -/
structure AIRouterConfig where
  defaultProvider : AIProvider := .auto
  fallbackEnabled : Bool := true
  costOptimization : Bool := false
  loadBalancing : Bool := false
deriving DecidableEq

/-- The usage-counter map `requestCounts : Map<AIProvider, number>`,
modelled as an association list in insertion order. -/
abbrev Counts := List (AIProvider × Nat)

/-- `Map.get`: first entry with the key, if any. -/
def countsGet (m : Counts) (k : AIProvider) : Option Nat :=
  (m.find? (fun e => e.1 == k)).map (·.2)

/-- `Map.set`: update the first entry with the key in place, else append. -/
def countsSet (m : Counts) (k : AIProvider) (v : Nat) : Counts :=
  match m with
  | [] => [(k, v)]
  | e :: rest => if e.1 == k then (k, v) :: rest else e :: countsSet rest k v

/-- `this.requestCounts.get(name) || 0`. -/
def getOrZero (m : Counts) (k : AIProvider) : Nat :=
  (countsGet m k).getD 0

/-- `getAvailableProviders()`: pushes the openai descriptor when
`hasOpenAI()` and then the anthropic descriptor when `hasAnthropic()`. -/
def getAvailableProviders (hasO hasA : Bool) : List AIProviderInfo :=
  (if hasO then [openaiInfo] else []) ++ (if hasA then [anthropicInfo] else [])

/-- JS stringification of a message object, as performed element-wise by
`request.messages.join("")`: a plain object stringifies to
`"[object Object]"` (15 characters), regardless of its fields. -/
def jsMessageString (_ : Message) : String :=
  "[object Object]"

/-- `(request.messages?.join("").length || 0) > 10000` — the long-context
test of `selectByCapabilities`.  Note it joins the message *objects*, not
their text. -/
def needsLongContext (req : ChatRequest) : Bool :=
  decide ((String.join (req.messages.map jsMessageString)).length > 10000)

/-- `request.messages?.some(msg => typeof msg.content === "object" &&
msg.content.type === "image")`. -/
def needsVision (req : ChatRequest) : Bool :=
  req.messages.any fun m =>
    match m.content with
    | .obj t => t == "image"
    | .str _ => false

/-- Total text length of the messages of a request (sum of the `content` string
lengths).  This is what the specification calls concatenated message text;
the join-based test of the source above measures something else. -/
def messageTextLength (req : ChatRequest) : Nat :=
  (req.messages.map fun m =>
    match m.content with
    | .str s => s.length
    | .obj _ => 0).sum

/-- Score of one provider in `selectByCapabilities`: speed base
(fast 3 / medium 2 / slow 1), `+5` when the long-context test passed and
`maxTokens > 100000`, `-10` when vision is needed but unsupported, minus
`costPerToken * 100000` (exactly `costPerTokenE5`). -/
def providerScore (long vis : Bool) (p : AIProviderInfo) : Int :=
  let base : Int :=
    match p.speed with
    | .fast => 3
    | .medium => 2
    | .slow => 1
  let withContext := base + (if long && decide (p.capabilities.maxTokens > 100000) then 5 else 0)
  let withVision := withContext - (if vis && !p.capabilities.vision then 10 else 0)
  withVision - (p.costPerTokenE5 : Int)

/-- A scored provider, entry of the `scores` array. -/
structure Scored where
  provider : AIProviderInfo
  score : Int
deriving DecidableEq

/-- Stable descending insertion: a new element goes before the first
strictly-smaller-or-equal score only when strictly greater is false —
i.e. `x` is placed before `y` exactly when `x.score ≥ y.score`, which for
elements originally to the left preserves the relative order of equal
scores, matching the stable `scores.sort((a, b) => b.score - a.score)`. -/
def insertScored (x : Scored) : List Scored → List Scored
  | [] => [x]
  | y :: ys => if x.score ≥ y.score then x :: y :: ys else y :: insertScored x ys

/-- Stable sort by descending score (model of the ES2019-stable
`Array.prototype.sort` with comparator `(a, b) => b.score - a.score`). -/
def sortByScoreDesc : List Scored → List Scored
  | [] => []
  | x :: xs => insertScored x (sortByScoreDesc xs)

/-- `selectByCapabilities(providers, request)`: score every provider and
return the best (`scores[0]` after the descending stable sort); `none` on
an empty list (unreachable from `selectProvider`). -/
def selectByCapabilities (providers : List AIProviderInfo) (req : ChatRequest) :
    Option AIProviderInfo :=
  let long := needsLongContext req
  let vis := needsVision req
  let scores := providers.map fun p => Scored.mk p (providerScore long vis p)
  (sortByScoreDesc scores).head?.map (·.provider)

/-- `selectByLoadBalancing(providers)`: linear scan keeping the first
provider whose counter is strictly below the running minimum; the minimum
starts at `Infinity` (modelled by `none`), so the first iteration always
selects `providers[0]`. -/
def selectByLoadBalancing (counts : Counts) (providers : List AIProviderInfo) :
    Option AIProviderInfo :=
  let step := fun (st : Option AIProviderInfo × Option Nat) (p : AIProviderInfo) =>
    let c := getOrZero counts p.name
    match st.2 with
    | none => (some p, some c)
    | some m => if c < m then (some p, some c) else st
  (providers.foldl step (providers.head?, none)).1

/-- `availableProviders.reduce((cheapest, current) =>
current.costPerToken < cheapest.costPerToken ? current : cheapest)`:
JS `reduce` without seed starts from the first element. -/
def reduceCheapest (first : AIProviderInfo) (rest : List AIProviderInfo) : AIProviderInfo :=
  rest.foldl
    (fun cheapest current =>
      if current.costPerTokenE5 < cheapest.costPerTokenE5 then current else cheapest)
    first

/-- The `ConfigurationError` message thrown when no provider is available. -/
def noProvidersMsg : String :=
  "No AI providers configured. Please set up at least one API key."

/-- `selectProvider(request)`.  Returns the chosen provider name together
with the updated `requestCounts`; the error case is the
`ConfigurationError`.  Mirrors the source: empty availability throws;
a non-`"auto"` `defaultProvider` found among the available providers is
returned immediately (note: *before* the `requestCounts.set` tracking
line, so that path leaves the counters untouched); otherwise exactly one
automatic strategy runs (cost optimization, else load balancing, else the
capability heuristic), a `undefined` strategy result falls back to
`availableProviders[0]`, and the counter of the selected provider is bumped. -/
def selectProvider (cfg : AIRouterConfig) (hasO hasA : Bool) (counts : Counts)
    (req : ChatRequest) : Except String (AIProvider × Counts) :=
  match getAvailableProviders hasO hasA with
  | [] => .error noProvidersMsg
  | first :: rest =>
    match
      (if cfg.defaultProvider != .auto then
        (first :: rest).find? (fun p => p.name == cfg.defaultProvider)
      else none) with
    | some p => .ok (p.name, counts)
    | none =>
      let selected : Option AIProviderInfo :=
        if cfg.costOptimization then some (reduceCheapest first rest)
        else if cfg.loadBalancing then selectByLoadBalancing counts (first :: rest)
        else selectByCapabilities (first :: rest) req
      let sel := selected.getD first
      .ok (sel.name, countsSet counts sel.name (getOrZero counts sel.name + 1))

/-- The provider name of a successful selection (projection helper). -/
def selName (r : Except String (AIProvider × Counts)) : Option AIProvider :=
  match r with
  | .ok (p, _) => some p
  | .error _ => none

/-- Errors surfaced by `chat`: the `ConfigurationError` from selection, or
the error thrown by a provider invocation (forwarded unchanged). -/
inductive ChatError where
  | config (msg : String)
  | provider (e : String)
deriving DecidableEq

/-- Equality of `Except` values is decidable when it is on both sides. -/
instance {ε α : Type} [DecidableEq ε] [DecidableEq α] : DecidableEq (Except ε α) := fun a b =>
  match a, b with
  | .ok x, .ok y => if h : x = y then .isTrue (by rw [h]) else .isFalse (by simp [h])
  | .error x, .error y => if h : x = y then .isTrue (by rw [h]) else .isFalse (by simp [h])
  | .ok _, .error _ => .isFalse (by simp)
  | .error _, .ok _ => .isFalse (by simp)

/-- Result of one `chat` call: the settled value, the final counters, and
the ordered list of providers actually invoked (instrumentation that makes
"never invokes a provider" statable). -/
structure ChatOutcome where
  result : Except ChatError String
  counts : Counts
  calls : List AIProvider
deriving DecidableEq

/-- The fallback loop of `chat`: try each provider in order, swallowing its
error and continuing; stop at the first success.  Returns the success (if
any) and the list of providers invoked by the loop. -/
def tryFallbacks (invoke : AIProvider → ChatRequest → Except String String)
    (req : ChatRequest) : List AIProvider → Option String × List AIProvider
  | [] => (none, [])
  | p :: ps =>
    match invoke p req with
    | .ok s => (some s, [p])
    | .error _ =>
      let r := tryFallbacks invoke req ps
      (r.1, p :: r.2)

/-- `chat(request)`: select the primary provider (its counter bump included
in the returned counts), invoke it; on failure, rethrow when fallback is
disabled, otherwise run the fallback loop over the remaining available
providers (filtered by name, invoked *directly*, not through
`selectProvider`); if the loop finds no success, the *original* error is
rethrown. -/
def chat (cfg : AIRouterConfig) (hasO hasA : Bool) (counts : Counts)
    (invoke : AIProvider → ChatRequest → Except String String) (req : ChatRequest) :
    ChatOutcome :=
  match selectProvider cfg hasO hasA counts req with
  | .error m => { result := .error (.config m), counts := counts, calls := [] }
  | .ok (primary, counts') =>
    match invoke primary req with
    | .ok s => { result := .ok s, counts := counts', calls := [primary] }
    | .error e =>
      if !cfg.fallbackEnabled then
        { result := .error (.provider e), counts := counts', calls := [primary] }
      else
        let fallbacks :=
          ((getAvailableProviders hasO hasA).filter (fun p => p.name != primary)).map (·.name)
        let tried := tryFallbacks invoke req fallbacks
        match tried.1 with
        | some s => { result := .ok s, counts := counts', calls := primary :: tried.2 }
        | none => { result := .error (.provider e), counts := counts', calls := primary :: tried.2 }

/-- One statistics entry: `{ requestCount, info: PROVIDER_INFO[provider] }`. -/
structure ProviderStats where
  requestCount : Nat
  info : Option AIProviderInfo
deriving DecidableEq

/-- `getStatistics()`: one entry per counter key, in map iteration
(= insertion) order. -/
def getStatistics (counts : Counts) : List (AIProvider × ProviderStats) :=
  counts.map fun e => (e.1, { requestCount := e.2, info := providerInfoOf e.1 })

/-- `resetStatistics()`: `requestCounts.clear()`. -/
def resetStatistics : Counts := []

/-- `N` successive `selectProvider` calls with a fixed configuration,
availability and request, threading the counters (a failing call leaves
them unchanged). -/
def iterateSelect (cfg : AIRouterConfig) (hasO hasA : Bool) (req : ChatRequest) :
    Nat → Counts → Counts
  | 0, counts => counts
  | n + 1, counts =>
    match selectProvider cfg hasO hasA counts req with
    | .ok (_, counts') => iterateSelect cfg hasO hasA req n counts'
    | .error _ => counts

/-- Maximum of a list of naturals (0 on empty). -/
def maxOn (l : List Nat) : Nat :=
  l.foldl Nat.max 0

/-- Minimum of a nonempty list of naturals (0 on empty). -/
def minOn : List Nat → Nat
  | [] => 0
  | x :: xs => xs.foldl Nat.min x

/-- Difference between the largest and smallest usage counter over a list
of providers. -/
def usageSpread (counts : Counts) (providers : List AIProviderInfo) : Nat :=
  let cs := providers.map fun p => getOrZero counts p.name
  maxOn cs - minOn cs

/-- Spec-side definition (for refinement comparison with the reduce of the
`reduce`): the first provider in declaration order achieving the minimal
`costPerToken` — "lowest cost-per-token, ties broken by first-encountered
in declaration order". -/
def specFirstCheapest (l : List AIProviderInfo) : Option AIProviderInfo :=
  l.find? fun p => l.all fun q => p.costPerTokenE5 ≤ q.costPerTokenE5

/-- Invariant maintained by load balancing when both providers are
available: the openai and anthropic counters differ by at most one. -/
def lbInv (counts : Counts) : Prop :=
  getOrZero counts .openai ≤ getOrZero counts .anthropic + 1 ∧
  getOrZero counts .anthropic ≤ getOrZero counts .openai + 1

/-- A request carrying 12000 characters of message text in one message. -/
def req12k : ChatRequest :=
  ⟨[⟨"user", .str (String.mk (List.replicate 12000 'a'))⟩]⟩

/-- Oracle under which every provider invocation throws, with a different
error per provider so the surfaced error is identifiable. -/
def invokeAllFail : AIProvider → ChatRequest → Except String String :=
  fun p _ =>
    match p with
    | .openai => .error "openai down"
    | _ => .error "anthropic down"

/-- Oracle under which openai throws and every other provider succeeds. -/
def invokeFbOk : AIProvider → ChatRequest → Except String String :=
  fun p _ =>
    match p with
    | .openai => .error "primary down"
    | _ => .ok "fallback stream"

/-
Helper lemmas (shared between claims).
-/

/-- Reading back the key just written returns the written value. -/
theorem countsGet_set_self (m : Counts) (k : AIProvider) (v : Nat) :
    countsGet (countsSet m k v) k = some v := by
  induction m with
  | nil => simp [countsSet, countsGet, List.find?]
  | cons e rest ih =>
    cases hbe : (e.1 == k) with
    | true => simp [countsSet, countsGet, List.find?, hbe]
    | false =>
      simp only [countsSet, hbe, Bool.false_eq_true, if_false]
      simpa [countsGet, List.find?, hbe] using ih

/-- Writing one key does not change the value read at another key. -/
theorem countsGet_set_other (m : Counts) (k q : AIProvider) (v : Nat) (h : q ≠ k) :
    countsGet (countsSet m k v) q = countsGet m q := by
  have hkq : (k == q) = false := by simp [Ne.symm h]
  induction m with
  | nil => simp [countsSet, countsGet, List.find?, hkq]
  | cons e rest ih =>
    cases hbe : (e.1 == k) with
    | true =>
      have heq : e.1 = k := by simpa using hbe
      simp [countsSet, countsGet, List.find?, hbe, hkq, heq]
    | false =>
      simp only [countsSet, hbe, Bool.false_eq_true, if_false]
      cases hq : (e.1 == q) with
      | true => simp [countsGet, List.find?, hq]
      | false => simpa [countsGet, List.find?, hq] using ih

/-- `getOrZero` version of `countsGet_set_self`. -/
theorem getOrZero_set_self (m : Counts) (k : AIProvider) (v : Nat) :
    getOrZero (countsSet m k v) k = v := by
  simp [getOrZero, countsGet_set_self]

/-- `getOrZero` version of `countsGet_set_other`. -/
theorem getOrZero_set_other (m : Counts) (k q : AIProvider) (v : Nat) (h : q ≠ k) :
    getOrZero (countsSet m k v) q = getOrZero m q := by
  simp [getOrZero, countsGet_set_other m k q v h]

/-- Length of a string fold of appends: the accumulator length plus the
sum of the element lengths. -/
theorem foldl_append_length (l : List String) (acc : String) :
    (l.foldl (fun r s => r ++ s) acc).length = acc.length + (l.map String.length).sum := by
  induction l generalizing acc with
  | nil => simp
  | cons s rest ih => simp [List.foldl, ih, String.length_append]; omega

/-- The join the source performs on message objects has length 15 per
message, whatever the messages contain. -/
theorem jsJoin_length (l : List Message) :
    (String.join (l.map jsMessageString)).length = 15 * l.length := by
  rw [String.join, foldl_append_length]
  have h15 : ("[object Object]" : String).length = 15 := rfl
  induction l with
  | nil => simp
  | cons m rest ih => simp [jsMessageString, h15] at *; omega

/-- With at most 666 messages the join stays at or below 9990 characters,
so the long-context test is off. -/
theorem needsLongContext_of_few (req : ChatRequest) (h : req.messages.length ≤ 666) :
    needsLongContext req = false := by
  simp only [needsLongContext, decide_eq_false_iff_not, not_lt, jsJoin_length]
  omega

/-- With both providers configured the capability heuristic always returns
the openai descriptor: the speed bases (3 vs 2) are exactly cancelled by
the cost penalties (3 vs 2), the long-context bonus goes to both providers
or to neither (both have more than 100000 max tokens), the vision penalty
never fires (both have vision), and the stable sort leaves the
first-declared provider in front on the tie. -/
theorem selectByCapabilities_both (req : ChatRequest) :
    selectByCapabilities [openaiInfo, anthropicInfo] req = some openaiInfo := by
  unfold selectByCapabilities
  cases hl : needsLongContext req <;> cases hv : needsVision req <;>
    simp [providerScore, openaiInfo, anthropicInfo, sortByScoreDesc, insertScored]

/-- With both providers available and a default configuration (automatic
mode, no cost optimization, no load balancing), `selectProvider` picks
openai for every request and bumps its counter. -/
theorem selectProvider_default_both (counts : Counts) (req : ChatRequest) :
    selectProvider {} true true counts req =
      .ok (.openai, countsSet counts .openai (getOrZero counts .openai + 1)) := by
  have h := selectByCapabilities_both req
  have hn : openaiInfo.name = .openai := rfl
  simp [selectProvider, getAvailableProviders, h, hn]

/-- Load balancing over the two-provider list: the scan keeps the first
provider whose counter is strictly below the running minimum, so anthropic
is selected exactly when its counter is strictly below the openai one. -/
theorem selectByLoadBalancing_both (counts : Counts) :
    selectByLoadBalancing counts [openaiInfo, anthropicInfo] =
      (if getOrZero counts .anthropic < getOrZero counts .openai
       then some anthropicInfo else some openaiInfo) := by
  have ho : openaiInfo.name = .openai := rfl
  have ha : anthropicInfo.name = .anthropic := rfl
  simp only [selectByLoadBalancing, List.foldl, List.head?, ho, ha]
  by_cases hc : getOrZero counts .anthropic < getOrZero counts .openai <;> simp [hc]

/-- One selection step under load balancing (automatic mode, cost
optimization unset) with both providers available, in explicit form. -/
theorem selectProvider_lb_both (cfg : AIRouterConfig) (counts : Counts) (req : ChatRequest)
    (hd : cfg.defaultProvider = .auto) (hco : cfg.costOptimization = false)
    (hlb : cfg.loadBalancing = true) :
    selectProvider cfg true true counts req =
      (if getOrZero counts .anthropic < getOrZero counts .openai
       then .ok (.anthropic, countsSet counts .anthropic (getOrZero counts .anthropic + 1))
       else .ok (.openai, countsSet counts .openai (getOrZero counts .openai + 1))) := by
  obtain ⟨d, fb, co, lb⟩ := cfg
  obtain rfl : d = .auto := hd
  obtain rfl : co = false := hco
  obtain rfl : lb = true := hlb
  have hsel := selectByLoadBalancing_both counts
  have ho : openaiInfo.name = .openai := rfl
  have ha : anthropicInfo.name = .anthropic := rfl
  simp only [selectProvider, getAvailableProviders, if_true, List.singleton_append]
  by_cases hc : getOrZero counts .anthropic < getOrZero counts .openai <;>
    simp [hsel, hc, ho, ha]

/-- The at-most-one counter gap is preserved through any number of
load-balancing selections with both providers available. -/
theorem lbInv_iterate (cfg : AIRouterConfig) (req : ChatRequest)
    (hd : cfg.defaultProvider = .auto) (hco : cfg.costOptimization = false)
    (hlb : cfg.loadBalancing = true) :
    ∀ (N : Nat) (counts : Counts), lbInv counts →
      lbInv (iterateSelect cfg true true req N counts) := by
  intro N
  induction N with
  | zero => intro counts h; simpa [iterateSelect] using h
  | succ n ih =>
    intro counts h
    obtain ⟨h1, h2⟩ := h
    rw [iterateSelect, selectProvider_lb_both cfg counts req hd hco hlb]
    by_cases hc : getOrZero counts .anthropic < getOrZero counts .openai
    · simp only [hc, if_true]
      apply ih
      constructor
      · rw [getOrZero_set_other counts .anthropic .openai _ (by decide), getOrZero_set_self]
        omega
      · rw [getOrZero_set_self, getOrZero_set_other counts .anthropic .openai _ (by decide)]
        omega
    · simp only [hc, if_false]
      apply ih
      constructor
      · rw [getOrZero_set_self, getOrZero_set_other counts .openai .anthropic _ (by decide)]
        omega
      · rw [getOrZero_set_other counts .openai .anthropic _ (by decide), getOrZero_set_self]
        omega

/-- Over a single provider the counter spread is zero. -/
theorem usageSpread_single (counts : Counts) (p : AIProviderInfo) :
    usageSpread counts [p] = 0 := by
  simp [usageSpread, maxOn, minOn, List.foldl]

/-- The at-most-one gap bounds the spread over the two-provider list. -/
theorem usageSpread_both_le_one (counts : Counts) (h : lbInv counts) :
    usageSpread counts [openaiInfo, anthropicInfo] ≤ 1 := by
  obtain ⟨h1, h2⟩ := h
  have ho : openaiInfo.name = .openai := rfl
  have ha : anthropicInfo.name = .anthropic := rfl
  simp only [usageSpread, maxOn, minOn, List.foldl, List.map, ho, ha]
  simp only [Nat.max_def, Nat.min_def]
  split <;> split <;> omega

/-- When the selection goes through one of the automatic strategies
(`defaultProvider` is `auto`, or names a provider that is not available),
the result is some available descriptor with its counter bumped. -/
theorem selectProvider_auto_shape (cfg : AIRouterConfig) (hasO hasA : Bool)
    (counts : Counts) (req : ChatRequest)
    (hne : getAvailableProviders hasO hasA ≠ [])
    (hnd : cfg.defaultProvider = .auto ∨
      cfg.defaultProvider ∉ (getAvailableProviders hasO hasA).map (·.name)) :
    ∃ sel : AIProviderInfo,
      selectProvider cfg hasO hasA counts req =
        .ok (sel.name, countsSet counts sel.name (getOrZero counts sel.name + 1)) := by
  cases hav : getAvailableProviders hasO hasA with
  | nil => exact absurd hav hne
  | cons first rest =>
    have hfind :
        (if cfg.defaultProvider != .auto then
          (first :: rest).find? (fun p => p.name == cfg.defaultProvider)
        else none) = none := by
      rcases hnd with h | h
      · simp [h]
      · rw [hav] at h
        by_cases hda : cfg.defaultProvider = .auto
        · simp [hda]
        · simp only [bne_iff_ne, ne_eq, hda, not_false_eq_true, if_true]
          rw [List.find?_eq_none]
          intro x hx
          simp only [beq_iff_eq]
          intro hxn
          exact h (by rw [← hxn]; exact List.mem_map_of_mem _ hx)
    simp only [selectProvider]
    rw [hav]
    simp only [hfind]
    exact ⟨_, rfl⟩

/-- A successful selection never changes the counter of a provider other
than the one returned. -/
theorem selectProvider_other_unchanged (cfg : AIRouterConfig) (hasO hasA : Bool)
    (counts : Counts) (req : ChatRequest) (p : AIProvider) (c' : Counts)
    (h : selectProvider cfg hasO hasA counts req = .ok (p, c'))
    (q : AIProvider) (hq : q ≠ p) : getOrZero c' q = getOrZero counts q := by
  simp only [selectProvider] at h
  split at h
  · exact absurd h (by simp)
  · split at h
    · simp only [Except.ok.injEq, Prod.mk.injEq] at h
      obtain ⟨hp, hc⟩ := h
      subst hc
      rfl
    · simp only [Except.ok.injEq, Prod.mk.injEq] at h
      obtain ⟨hp, hc⟩ := h
      subst hp
      subst hc
      exact getOrZero_set_other counts _ q _ hq

/-- If every provider in the list throws, the fallback loop finds nothing. -/
theorem tryFallbacks_all_error (invoke : AIProvider → ChatRequest → Except String String)
    (req : ChatRequest) (l : List AIProvider)
    (h : ∀ p ∈ l, ∃ e, invoke p req = .error e) :
    (tryFallbacks invoke req l).1 = none := by
  induction l with
  | nil => rfl
  | cons p ps ih =>
    obtain ⟨e, he⟩ := h p (List.mem_cons_self p ps)
    simp only [tryFallbacks, he]
    exact ih fun q hq => h q (List.mem_cons_of_mem p hq)

/-- The single message of `req12k` carries 12000 characters of text. -/
theorem singleReplicateMsg_textLength (n : Nat) :
    messageTextLength ⟨[⟨"user", .str (String.mk (List.replicate n 'a'))⟩]⟩ = n := by
  simp only [messageTextLength, List.map, List.sum_cons, List.sum_nil, Nat.add_zero]
  rw [show (String.mk (List.replicate n 'a')).length = (List.replicate n 'a').length from rfl,
    List.length_replicate]

theorem req12k_textLength : messageTextLength req12k = 12000 :=
  singleReplicateMsg_textLength 12000

/-
Claim theorems.
-/

/-- Claim C1: with fallback enabled and both providers available (the only
two-provider availability), when the invocation of the primarily-selected
provider throws and every remaining available provider also throws, `chat`
rejects with the original error of the primary provider, not with a later
fallback error. -/
theorem chat_allFail_surfaces_primary_error (cfg : AIRouterConfig) (counts : Counts)
    (req : ChatRequest) (invoke : AIProvider → ChatRequest → Except String String)
    (primary : AIProvider) (counts' : Counts) (e : String)
    (hfb : cfg.fallbackEnabled = true)
    (hsel : selectProvider cfg true true counts req = .ok (primary, counts'))
    (hprim : invoke primary req = .error e)
    (hrest : ∀ p ∈ ((getAvailableProviders true true).filter
        (fun q => q.name != primary)).map (·.name), ∃ e2, invoke p req = .error e2) :
    (chat cfg true true counts invoke req).result = .error (.provider e) := by
  have hnone := tryFallbacks_all_error invoke req _ hrest
  simp [chat, hsel, hprim, hfb, hnone]

/-- Concrete instantiation of the all-providers-fail scenario: both
invocations throw, and the surfaced error is the openai (primary) one. -/
theorem chat_allFail_surfaces_primary_error_witness :
    ({} : AIRouterConfig).fallbackEnabled = true ∧
    selectProvider {} true true [] ⟨[]⟩ = .ok (.openai, [(.openai, 1)]) ∧
    invokeAllFail .openai ⟨[]⟩ = .error "openai down" ∧
    (chat {} true true [] invokeAllFail ⟨[]⟩).result = .error (.provider "openai down") := by
  refine ⟨rfl, by decide, rfl,
    chat_allFail_surfaces_primary_error {} [] ⟨[]⟩ invokeAllFail .openai [(.openai, 1)]
      "openai down" rfl (by decide) rfl ?_⟩
  intro p hp
  cases p with
  | openai => exact absurd hp (by decide)
  | anthropic => exact ⟨"anthropic down", rfl⟩
  | auto => exact absurd hp (by decide)

/-- Claim C2, counterexample: on a request whose message text totals 12000
characters, the default-configuration selection is openai — not anthropic
as claimed — because the join-based long-context test sees only 15
characters. -/
theorem selectProvider_12k_counterexample :
    messageTextLength req12k = 12000 ∧
    selName (selectProvider {} true true [] req12k) = some .openai ∧
    AIProvider.openai ≠ .anthropic := by
  refine ⟨req12k_textLength, ?_, by decide⟩
  rw [selectProvider_default_both]
  rfl

/-- Claim C2, amended: with available providers openai and anthropic,
automatic mode and neither flag set, a request whose message text totals
12000 characters selects openai: the long-context test measures the join
of the message objects (15 characters each), so the threshold is not
reached; and even when it is, both providers receive the bonus, the scores
tie, and the stable sort keeps the first-declared provider. -/
theorem selectProvider_12k_returns_openai (counts : Counts) (req : ChatRequest)
    (_h : messageTextLength req = 12000) :
    selName (selectProvider {} true true counts req) = some .openai := by
  rw [selectProvider_default_both]
  rfl

/-- Witness for the amended C2 statement at the concrete request. -/
theorem selectProvider_12k_returns_openai_witness :
    messageTextLength req12k = 12000 ∧
    selName (selectProvider {} true true [] req12k) = some .openai :=
  ⟨req12k_textLength, selectProvider_12k_returns_openai [] req12k req12k_textLength⟩

/-- Claim C3, counterexample: with `defaultProvider` naming an available
provider, a successful `selectProvider` call returns it but leaves the
counters untouched (still empty), so no usage counter was incremented and
`getStatistics` reports nothing. -/
theorem selectProvider_default_no_increment :
    selectProvider { defaultProvider := .openai } true true [] ⟨[]⟩ = .ok (.openai, []) ∧
    getOrZero [] .openai = 0 ∧
    getStatistics [] = [] := by
  decide

/-- Claim C3, amended: every `selectProvider` call that selects through
the automatic strategies (`defaultProvider` `auto`, or naming an
unavailable provider) increments the returned provider counter by exactly
one and leaves every other counter unchanged; on a fresh router the
statistics then report that provider with request count one.  The
early-return path for an available `defaultProvider` performs no
increment. -/
theorem selectProvider_auto_increments (cfg : AIRouterConfig) (hasO hasA : Bool)
    (counts : Counts) (req : ChatRequest)
    (hne : getAvailableProviders hasO hasA ≠ [])
    (hnd : cfg.defaultProvider = .auto ∨
      cfg.defaultProvider ∉ (getAvailableProviders hasO hasA).map (·.name)) :
    ∃ p counts',
      selectProvider cfg hasO hasA counts req = .ok (p, counts') ∧
      getOrZero counts' p = getOrZero counts p + 1 ∧
      (∀ q, q ≠ p → getOrZero counts' q = getOrZero counts q) ∧
      (counts = [] → getStatistics counts' =
        [(p, { requestCount := 1, info := providerInfoOf p })]) := by
  obtain ⟨sel, hsel⟩ := selectProvider_auto_shape cfg hasO hasA counts req hne hnd
  refine ⟨sel.name, _, hsel, getOrZero_set_self counts sel.name _, ?_, ?_⟩
  · intro q hq
    exact getOrZero_set_other counts sel.name q _ hq
  · intro hc
    subst hc
    simp [countsSet, getOrZero, countsGet, getStatistics]

/-- Witness for the amended C3 statement on a fresh default router. -/
theorem selectProvider_auto_increments_witness :
    getAvailableProviders true true ≠ [] ∧
    (∃ p counts',
      selectProvider {} true true [] ⟨[]⟩ = .ok (p, counts') ∧
      getOrZero counts' p = getOrZero [] p + 1 ∧
      (∀ q, q ≠ p → getOrZero counts' q = getOrZero [] q) ∧
      (([] : Counts) = [] → getStatistics counts' =
        [(p, { requestCount := 1, info := providerInfoOf p })])) :=
  ⟨by decide, selectProvider_auto_increments {} true true [] ⟨[]⟩ (by decide) (Or.inl rfl)⟩

/-- Claim C4, counterexample: primary fails, fallback succeeds, yet only
the primary counter was bumped; the fallback counter is still zero. -/
theorem chat_fallback_single_increment :
    (chat {} true true [] invokeFbOk ⟨[]⟩).result = .ok "fallback stream" ∧
    (chat {} true true [] invokeFbOk ⟨[]⟩).counts = [(.openai, 1)] ∧
    getOrZero [(.openai, 1)] .anthropic = 0 := by
  decide

/-- Claim C4, amended: in the failover scenario (fallback enabled, both
providers available, primary invocation throws, fallback invocation
succeeds) the counters after `chat` are exactly those of the single
`selectProvider` call: the fallback attempt is invoked directly, not
through `selectProvider`, so only the primary counter is incremented and
every other counter is unchanged. -/
theorem chat_fallback_counts (cfg : AIRouterConfig) (counts : Counts) (req : ChatRequest)
    (invoke : AIProvider → ChatRequest → Except String String)
    (primary fb : AIProvider) (counts' : Counts) (e s : String)
    (hfb : cfg.fallbackEnabled = true)
    (hsel : selectProvider cfg true true counts req = .ok (primary, counts'))
    (hprim : invoke primary req = .error e)
    (hlist : ((getAvailableProviders true true).filter
        (fun p => p.name != primary)).map (·.name) = [fb])
    (hsucc : invoke fb req = .ok s) :
    (chat cfg true true counts invoke req).result = .ok s ∧
    (chat cfg true true counts invoke req).counts = counts' ∧
    ∀ q, q ≠ primary → getOrZero counts' q = getOrZero counts q := by
  have hcalls : tryFallbacks invoke req [fb] = (some s, [fb]) := by
    simp [tryFallbacks, hsucc]
  refine ⟨?_, ?_, fun q hq =>
    selectProvider_other_unchanged cfg true true counts req primary counts' hsel q hq⟩ <;>
   simp [chat, hsel, hprim, hfb, hlist, hcalls]

/-- Witness for the amended C4 statement at the concrete failover oracle. -/
theorem chat_fallback_counts_witness :
    ({} : AIRouterConfig).fallbackEnabled = true ∧
    selectProvider {} true true [] ⟨[]⟩ = .ok (.openai, [(.openai, 1)]) ∧
    invokeFbOk .openai ⟨[]⟩ = .error "primary down" ∧
    ((getAvailableProviders true true).filter
        (fun p => p.name != AIProvider.openai)).map (·.name) = [.anthropic] ∧
    invokeFbOk .anthropic ⟨[]⟩ = .ok "fallback stream" ∧
    ((chat {} true true [] invokeFbOk ⟨[]⟩).result = .ok "fallback stream" ∧
     (chat {} true true [] invokeFbOk ⟨[]⟩).counts = [(.openai, 1)] ∧
     ∀ q, q ≠ AIProvider.openai → getOrZero [(.openai, 1)] q = getOrZero [] q) :=
  ⟨rfl, by decide, rfl, by decide, rfl,
    chat_fallback_counts {} [] ⟨[]⟩ invokeFbOk .openai .anthropic [(.openai, 1)]
      "primary down" "fallback stream" rfl (by decide) rfl (by decide) rfl⟩

/-- Claim C5: with no provider available, `selectProvider` and `chat` fail
with the configuration error, no provider is ever invoked (the call log is
empty), and the counters are unchanged. -/
theorem noProviders_config_error (cfg : AIRouterConfig) (counts : Counts)
    (req : ChatRequest) (invoke : AIProvider → ChatRequest → Except String String) :
    selectProvider cfg false false counts req = .error noProvidersMsg ∧
    (chat cfg false false counts invoke req).result = .error (.config noProvidersMsg) ∧
    (chat cfg false false counts invoke req).calls = [] ∧
    (chat cfg false false counts invoke req).counts = counts := by
  have hsel : selectProvider cfg false false counts req = .error noProvidersMsg := by
    simp [selectProvider, getAvailableProviders]
  exact ⟨hsel, by simp [chat, hsel], by simp [chat, hsel], by simp [chat, hsel]⟩

/-- Claim C6: when `defaultProvider` names an available provider,
`selectProvider` returns exactly that provider, whatever the
`costOptimization` and `loadBalancing` flags. -/
theorem selectProvider_default_available (cfg : AIRouterConfig) (hasO hasA : Bool)
    (counts : Counts) (req : ChatRequest)
    (h : cfg.defaultProvider ∈ (getAvailableProviders hasO hasA).map (·.name)) :
    selName (selectProvider cfg hasO hasA counts req) = some cfg.defaultProvider := by
  obtain ⟨d, fb, co, lb⟩ := cfg
  have h2 : d ∈ (getAvailableProviders hasO hasA).map (·.name) := h
  cases hasO <;> cases hasA <;> cases d <;>
    first
      | rfl
      | exact absurd h2 (by decide)

/-- Witness for C6 with anthropic configured and available. -/
theorem selectProvider_default_available_witness :
    (({ defaultProvider := .anthropic } : AIRouterConfig).defaultProvider ∈
      (getAvailableProviders true true).map (·.name)) ∧
    selName (selectProvider { defaultProvider := .anthropic } true true [] ⟨[]⟩) =
      some ({ defaultProvider := .anthropic } : AIRouterConfig).defaultProvider :=
  ⟨by decide, selectProvider_default_available _ true true [] ⟨[]⟩ (by decide)⟩

/-- Claim C7: in automatic mode with cost optimization set, the selection
is the first available provider of minimal cost per token (the spec-side
first-minimum reading, ties to the first-encountered); with both providers
available that is anthropic (cost 0.00002 against 0.00003). -/
theorem selectProvider_costOpt (cfg : AIRouterConfig) (hasO hasA : Bool)
    (counts : Counts) (req : ChatRequest)
    (hd : cfg.defaultProvider = .auto) (hco : cfg.costOptimization = true) :
    selName (selectProvider cfg hasO hasA counts req) =
      (specFirstCheapest (getAvailableProviders hasO hasA)).map (·.name) := by
  obtain ⟨d, fb, co, lb⟩ := cfg
  obtain rfl : d = .auto := hd
  obtain rfl : co = true := hco
  cases hasO <;> cases hasA <;>
    simp [getAvailableProviders, selectProvider, selName, specFirstCheapest,
      reduceCheapest, openaiInfo, anthropicInfo, List.find?, List.all]

/-- Witness for C7 with both providers available: anthropic is returned. -/
theorem selectProvider_costOpt_witness :
    ({ costOptimization := true } : AIRouterConfig).defaultProvider = .auto ∧
    ({ costOptimization := true } : AIRouterConfig).costOptimization = true ∧
    selName (selectProvider { costOptimization := true } true true [] ⟨[]⟩) =
      (specFirstCheapest (getAvailableProviders true true)).map (·.name) ∧
    (specFirstCheapest (getAvailableProviders true true)).map (·.name) = some .anthropic :=
  ⟨rfl, rfl, selectProvider_costOpt _ true true [] ⟨[]⟩ rfl rfl, by decide⟩

/-- Claim C8, counterexample: a router with `loadBalancing` *and*
`costOptimization` both set is still in automatic mode, but cost
optimization takes priority; every call selects anthropic and after two
calls the counter spread is already 2. -/
theorem loadBalancing_with_costOpt_spread :
    usageSpread
      (iterateSelect { costOptimization := true, loadBalancing := true } true true ⟨[]⟩ 2 [])
      (getAvailableProviders true true) = 2 ∧
    ¬ usageSpread
      (iterateSelect { costOptimization := true, loadBalancing := true } true true ⟨[]⟩ 2 [])
      (getAvailableProviders true true) ≤ 1 := by
  decide

/-- Claim C8, amended: with `loadBalancing` set and `costOptimization`
unset, in automatic mode, starting from all-zero counters, after any
number of selections over a fixed nonempty availability with no failures,
the spread between the largest and smallest counter over the available
providers never exceeds one. -/
theorem loadBalancing_spread_le_one (cfg : AIRouterConfig) (hasO hasA : Bool)
    (req : ChatRequest) (N : Nat)
    (hd : cfg.defaultProvider = .auto) (hco : cfg.costOptimization = false)
    (hlb : cfg.loadBalancing = true)
    (hne : getAvailableProviders hasO hasA ≠ []) :
    usageSpread (iterateSelect cfg hasO hasA req N []) (getAvailableProviders hasO hasA) ≤ 1 := by
  cases hasO <;> cases hasA
  · exact absurd rfl hne
  · rw [show getAvailableProviders false true = [anthropicInfo] from rfl, usageSpread_single]
    decide
  · rw [show getAvailableProviders true false = [openaiInfo] from rfl, usageSpread_single]
    decide
  · rw [show getAvailableProviders true true = [openaiInfo, anthropicInfo] from rfl]
    exact usageSpread_both_le_one _
      (lbInv_iterate cfg req hd hco hlb N [] ⟨by decide, by decide⟩)

/-- Witness for the amended C8 statement: five balanced calls keep the
spread within one. -/
theorem loadBalancing_spread_le_one_witness :
    ({ loadBalancing := true } : AIRouterConfig).defaultProvider = .auto ∧
    ({ loadBalancing := true } : AIRouterConfig).costOptimization = false ∧
    ({ loadBalancing := true } : AIRouterConfig).loadBalancing = true ∧
    getAvailableProviders true true ≠ [] ∧
    usageSpread (iterateSelect { loadBalancing := true } true true ⟨[]⟩ 5 [])
      (getAvailableProviders true true) ≤ 1 :=
  ⟨rfl, rfl, rfl, by decide,
    loadBalancing_spread_le_one _ true true ⟨[]⟩ 5 rfl rfl rfl (by decide)⟩

/-- Claim C9: a `defaultProvider` naming a provider that is not available
does not fail the selection; the call behaves exactly as the same router
in automatic mode, so the strategy in effect makes the choice (counter
updates included). -/
theorem selectProvider_default_unavailable (cfg : AIRouterConfig) (hasO hasA : Bool)
    (counts : Counts) (req : ChatRequest)
    (hna : cfg.defaultProvider ≠ .auto)
    (hni : cfg.defaultProvider ∉ (getAvailableProviders hasO hasA).map (·.name)) :
    selectProvider cfg hasO hasA counts req =
      selectProvider { cfg with defaultProvider := .auto } hasO hasA counts req := by
  obtain ⟨d, fb, co, lb⟩ := cfg
  simp only [selectProvider]
  cases hav : getAvailableProviders hasO hasA with
  | nil => rfl
  | cons first rest =>
    rw [hav] at hni
    have hfind : (first :: rest).find? (fun p => p.name == d) = none := by
      rw [List.find?_eq_none]
      intro x hx
      simp only [beq_iff_eq]
      intro hxn
      exact hni (by rw [← hxn]; exact List.mem_map_of_mem _ hx)
    simp [hna, hfind, bne_iff_ne]

/-- Witness for C9: openai configured but unavailable, anthropic's
automatic choice is made instead. -/
theorem selectProvider_default_unavailable_witness :
    ({ defaultProvider := .openai } : AIRouterConfig).defaultProvider ≠ .auto ∧
    ({ defaultProvider := .openai } : AIRouterConfig).defaultProvider ∉
      (getAvailableProviders false true).map (·.name) ∧
    selectProvider { defaultProvider := .openai } false true [] ⟨[]⟩ =
      selectProvider { ({ defaultProvider := .openai } : AIRouterConfig) with
        defaultProvider := .auto } false true [] ⟨[]⟩ :=
  ⟨by decide, by decide,
    selectProvider_default_unavailable _ false true [] ⟨[]⟩ (by decide) (by decide)⟩

/-- Claim C10: in the default configuration with both providers available,
any request with at most 666 messages stays below the join-length
threshold (the join measures 15 characters per message object, not the
message text), and the stable-sort tie-break selects openai. -/
theorem selectProvider_default_under_threshold (counts : Counts) (req : ChatRequest)
    (h : req.messages.length ≤ 666) :
    needsLongContext req = false ∧
    selName (selectProvider {} true true counts req) = some .openai := by
  refine ⟨needsLongContext_of_few req h, ?_⟩
  rw [selectProvider_default_both]
  rfl

/-- Witness for C10 at a two-message request. -/
theorem selectProvider_default_under_threshold_witness :
    (⟨[⟨"user", .str "hello"⟩, ⟨"assistant", .str "hi"⟩]⟩ : ChatRequest).messages.length ≤ 666 ∧
    (needsLongContext ⟨[⟨"user", .str "hello"⟩, ⟨"assistant", .str "hi"⟩]⟩ = false ∧
     selName (selectProvider {} true true []
        ⟨[⟨"user", .str "hello"⟩, ⟨"assistant", .str "hi"⟩]⟩) = some .openai) :=
  ⟨by decide, selectProvider_default_under_threshold [] _ (by decide)⟩

end AIRouterModel
